import Mathlib

/-!
# Verification of the BPO AI Quality Assistant backend

Shallow embedding of the backend of the audio-upload → transcription →
analysis → coaching pipeline (Express + Mongoose + OpenAI services),
together with proofs about the natural-language specification.

Conventions of the embedding:
* JavaScript numbers are modelled as rationals (`ℚ`).  `Math.exp` is kept
  abstract as a function parameter `qexp : ℚ → ℚ` wherever the source calls
  it, since only the call structure — not the analytic function — matters to
  the properties considered here.
* A JavaScript value that may be `undefined` is an `Option`; a field that
  distinguishes `undefined` from `null` (the LLM sentiment score does) is an
  `Option (Option ℚ)` (`none` = undefined, `some none` = null).
* JavaScript truthiness on strings (`!s` is true for absent and for `""`)
  is `strTruthy`; on numbers (`!n` is true for absent, `0` and `NaN`) it is
  `numTruthy` (`NaN` is not representable in `ℚ` and is not modelled).
* The Mongo document store is a `Store` of four lists; `findById` /
  `findOne` are `List.find?`, `findByIdAndUpdate` is a `List.map`, `save`
  appends after running the Mongoose schema validators, which are embedded
  from the schema files (`required`, `enum`, `min`, `max`).  Generated
  ObjectIds and wall-clock latencies are inputs of the embedded operations.
* Each controller operation returns its HTTP response, the new store and the
  number of document-store accesses it performed (reads and writes), which
  lets the theorems state that a request was rejected before any lookup.
-/

namespace BPO

/-- JavaScript string truthiness for an optional string: `undefined` and
`""` are falsy. -/
def strTruthy : Option String → Bool
  | none => false
  | some s => s ≠ ""

/-- JavaScript number truthiness for an optional rational: `undefined` and
`0` are falsy. -/
def numTruthy : Option ℚ → Bool
  | none => false
  | some q => q ≠ 0

/-- JavaScript `a || b` on an optional string (`undefined` and `""` fall
through to the default). -/
def jsOrStr (a : Option String) (b : String) : String :=
  match a with
  | none => b
  | some s => if s = "" then b else s

/-- One character of `[0-9a-fA-F]`. -/
def isHexChar (c : Char) : Bool :=
  c.isDigit || (('a' ≤ c) && (c ≤ 'f')) || (('A' ≤ c) && (c ≤ 'F'))

/-- The id-shape check `/^[0-9a-fA-F]{24}$/` used by every controller. -/
def isValidId (s : String) : Bool :=
  s.length == 24 && s.data.all isHexChar

/-! ## Data model (Mongoose schemas) -/

/-- Embeds `models/AudioFile.js`: one uploaded audio file. -/
structure AudioFile where
  oid : String
  originalName : String
  filename : String
  path : String
  mimetype : String
  size : Nat
  duration : Option ℚ
  status : String
  deriving Repr, DecidableEq

/-- A stored transcript segment (`models/Transcript.js`, `segments` entry);
`stop` embeds the source field `end` (a Lean keyword). -/
structure Segment where
  text : String
  start : ℚ
  stop : ℚ
  confidence : ℚ
  deriving Repr, DecidableEq

/-- Embeds `models/Transcript.js`: one transcript document. -/
structure TranscriptDoc where
  oid : String
  audioFileId : String
  text : String
  confidence : ℚ
  segments : List Segment
  language : String
  processingTime : ℚ
  deriving Repr, DecidableEq

/-- The `sentiment` block of an LLM analysis response, as the code reads
it: `overall` may be absent, `score` distinguishes absent (`none`) from
null (`some none`), `confidence` may be absent. -/
structure SentimentR where
  overall : Option String
  score : Option (Option ℚ)
  confidence : Option ℚ
  deriving Repr, DecidableEq

/-- Embeds `customerSatisfaction` block of an analysis response (only the field
the backend filters and validates on). -/
structure CSatR where
  score : Option ℚ
  deriving Repr, DecidableEq

/-- Embeds `issueResolution` block of an analysis response (only the field the
backend filters on). -/
structure IResR where
  wasResolved : Option Bool
  deriving Repr, DecidableEq

/-- The fields of the parsed LLM analysis JSON that the backend reads,
validates, filters or constrains; the remaining blocks (emotions,
keyTopics, communicationMetrics, compliance) are trusted as-is by the code
and carry no validators relevant here, so they are not tracked. -/
structure AnalysisResponse where
  sentiment : Option SentimentR
  customerSatisfaction : Option CSatR
  issueResolution : Option IResR
  summary : Option String
  deriving Repr, DecidableEq

/-- Embeds `models/Analysis.js`: one analysis document as the controller builds
it (validation happens at `save`). -/
structure AnalysisDoc where
  oid : String
  transcriptId : String
  audioFileId : String
  sentiment : Option SentimentR
  customerSatisfaction : Option CSatR
  issueResolution : Option IResR
  summary : Option String
  processingTime : ℚ
  deriving Repr, DecidableEq

/-- The `overallPerformance` block of an LLM coaching response. -/
structure OverallPerformanceR where
  score : Option ℚ
  level : Option String
  deriving Repr, DecidableEq

/-- The fields of the parsed LLM coaching-plan JSON that the backend reads
or validates; the list blocks (strengths, improvementAreas, actionItems,
trainingRecommendations, followUpPlan, customNotes) are passed through
untouched and are assumed to cast cleanly under the schema. -/
structure CoachingResponse where
  agentId : Option String
  overallPerformance : Option OverallPerformanceR
  customNotes : Option String
  deriving Repr, DecidableEq

/-- Embeds `models/CoachingPlan.js`: one coaching-plan document as the controller
builds it. -/
structure CoachingPlanDoc where
  oid : String
  analysisId : String
  audioFileId : String
  agentId : Option String
  overallPerformance : Option OverallPerformanceR
  customNotes : Option String
  deriving Repr, DecidableEq

/-- The four collections of the document store. -/
structure Store where
  audioFiles : List AudioFile
  transcripts : List TranscriptDoc
  analyses : List AnalysisDoc
  coachingPlans : List CoachingPlanDoc
  deriving Repr, DecidableEq

/-! ## Mongoose schema validators (run by `save`)

`required` on a `String` path rejects `undefined`, `null` and `""`;
`required` on a `Number` path rejects `undefined` and `null`;
`enum` and `min`/`max` validate a present value. -/

/-- Embeds `models/AudioFile.js` validators: `originalName`, `filename`, `path`,
`size` required, `mimetype` required within its enum, `status` within its
enum. -/
def validAudioFileDoc (a : AudioFile) : Bool :=
  a.originalName ≠ "" && a.filename ≠ "" && a.path ≠ "" &&
    (a.mimetype ∈ ["audio/wav", "audio/mpeg", "audio/mp3"] : Bool) &&
    (a.status ∈ ["uploaded", "processing", "completed", "failed"] : Bool)

/-- Embeds `models/Transcript.js` validators: `text` required,
`confidence` within `[0, 1]`. -/
def validTranscriptDoc (t : TranscriptDoc) : Bool :=
  t.text ≠ "" && decide (0 ≤ t.confidence) && decide (t.confidence ≤ 1)

/-- Embeds `models/Analysis.js` validators: `sentiment.overall` required within
`positive|neutral|negative`, `sentiment.score` required within `[-1, 1]`,
`sentiment.confidence` within `[0, 1]` when present,
`customerSatisfaction.score` within `[1, 10]` when present, `summary`
required. -/
def validAnalysisDoc (d : AnalysisDoc) : Bool :=
  (match d.sentiment with
   | none => false
   | some s =>
     (match s.overall with
      | some o => (o ∈ ["positive", "neutral", "negative"] : Bool)
      | none => false) &&
     (match s.score with
      | some (some q) => decide (-1 ≤ q) && decide (q ≤ 1)
      | _ => false) &&
     (match s.confidence with
      | none => true
      | some c => decide (0 ≤ c) && decide (c ≤ 1))) &&
  (match d.customerSatisfaction with
   | none => true
   | some cs =>
     match cs.score with
     | none => true
     | some q => decide (1 ≤ q) && decide (q ≤ 10)) &&
  (match d.summary with
   | some s => s ≠ ""
   | none => false)

/-- Embeds `models/CoachingPlan.js` validators: `agentId` required,
`overallPerformance.score` required within `[0, 100]`,
`overallPerformance.level` required within its five-value enum. -/
def validCoachingPlanDoc (c : CoachingPlanDoc) : Bool :=
  (match c.agentId with
   | some s => s ≠ ""
   | none => false) &&
  (match c.overallPerformance with
   | none => false
   | some op =>
     (match op.score with
      | some q => decide (0 ≤ q) && decide (q ≤ 100)
      | none => false) &&
     (match op.level with
      | some l =>
        (l ∈ ["excellent", "good", "average", "needs_improvement", "poor"] : Bool)
      | none => false))

/-! ## STT service (`services/sttService.js`, listed in the backend README)

The Whisper API reply (`verbose_json`) is the provider oracle; an
`Except.error` models a failed provider call (or any of the service's own
pre-checks failing), carrying the error message. -/

/-- A raw Whisper segment as the service reads it (`start`, `end`,
`avg_logprob` may be absent; `stop` embeds the source field `end`). -/
structure RawSegment where
  text : Option String
  start : Option ℚ
  stop : Option ℚ
  avg_logprob : Option ℚ
  deriving Repr, DecidableEq

/-- The fields of a successful Whisper reply that the service reads. -/
structure WhisperResult where
  text : Option String
  segments : Option (List RawSegment)
  language : Option String
  duration : Option ℚ
  deriving Repr, DecidableEq

/-- What the service returns to the transcript controller on success. -/
structure TranscriptionResult where
  text : String
  confidence : ℚ
  segments : List Segment
  language : String
  duration : ℚ
  processingTime : ℚ
  deriving Repr, DecidableEq

/-- Per-segment confidence,
`segment.avg_logprob ? Math.exp(segment.avg_logprob) : 0.8`:
an absent (or zero, hence falsy) `avg_logprob` yields the constant `0.8`,
otherwise `Math.exp` (abstracted as `qexp`) of it. -/
def segConfidence (qexp : ℚ → ℚ) (s : RawSegment) : ℚ :=
  match s.avg_logprob with
  | none => 0.8
  | some a => if a = 0 then 0.8 else qexp a

/-- The duration `(segment.end || 0) - (segment.start || 0)` of a raw
segment. -/
def segDuration (s : RawSegment) : ℚ :=
  s.stop.getD 0 - s.start.getD 0

/-- Embeds `STTService.calculateOverallConfidence`: `0.8` for an absent or empty
segment list, otherwise the duration-weighted confidence sum divided by the
total duration, clamped above at `1` — falling back to `0.8` when the total
duration is not positive. -/
def calculateOverallConfidence (qexp : ℚ → ℚ) (segments : List RawSegment) : ℚ :=
  if segments.isEmpty then 0.8
  else
    let totalDuration := segments.foldl (fun acc s => acc + segDuration s) 0
    let weightedConfidence :=
      segments.foldl (fun acc s => acc + segConfidence qexp s * segDuration s) 0
    if 0 < totalDuration then min (weightedConfidence / totalDuration) 1 else 0.8

/-- Embeds `STTService.transformSegments`: map each raw segment to the stored
shape, defaulting text to `""`, offsets to `0` and confidence per
`segConfidence`. -/
def transformSegments (qexp : ℚ → ℚ) (segments : List RawSegment) : List Segment :=
  segments.map fun s =>
    { text := s.text.getD ""
      start := s.start.getD 0
      stop := s.stop.getD 0
      confidence := segConfidence qexp s }

/-- Embeds `STTService.getSupportedLanguages`. -/
def supportedLanguages : List String :=
  ["af", "ar", "hy", "az", "be", "bs", "bg", "ca", "zh", "hr", "cs", "da",
   "nl", "en", "et", "fi", "fr", "gl", "de", "el", "he", "hi", "hu", "is",
   "id", "it", "ja", "kn", "kk", "ko", "lv", "lt", "mk", "ms", "mr", "mi",
   "ne", "no", "fa", "pl", "pt", "ro", "ru", "sr", "sk", "sl", "es", "sw",
   "sv", "tl", "ta", "th", "tr", "uk", "ur", "vi", "cy"]

/-- Embeds `STTService.transcribeAudio` after the API call: transform a provider
reply into a `TranscriptionResult`, or wrap a failure message as
`Transcription failed: …`.  `procTime` models the measured wall-clock
latency. -/
def sttTranscribeAudio (qexp : ℚ → ℚ) (provider : Except String WhisperResult)
    (language : String) (procTime : ℚ) : Except String TranscriptionResult :=
  match provider with
  | .error msg => .error ("Transcription failed: " ++ msg)
  | .ok r =>
    .ok { text := r.text.getD ""
          confidence := calculateOverallConfidence qexp (r.segments.getD [])
          segments := transformSegments qexp (r.segments.getD [])
          language := jsOrStr r.language language
          duration := r.duration.getD 0
          processingTime := procTime }

/-! ## LLM service (`services/llmService.js`) -/

/-- Embeds `LLMService.analyzeTranscript` after the API call: the post-hoc
validation of the parsed JSON.  `!sentiment || !sentiment.overall ||
sentiment.score === undefined` rejects an absent sentiment block, a falsy
`overall` (absent or `""`) and an *undefined* `score` (a null score
passes); `!summary` rejects a falsy summary.  Every failure — provider or
validation — is wrapped as `LLM Analysis failed: …`. -/
def llmAnalyzeTranscript (provider : Except String AnalysisResponse) :
    Except String AnalysisResponse :=
  match provider with
  | .error msg => .error ("LLM Analysis failed: " ++ msg)
  | .ok r =>
    match r.sentiment with
    | none =>
      .error ("LLM Analysis failed: " ++
        "Invalid analysis response: missing required sentiment fields (overall and score)")
    | some s =>
      if strTruthy s.overall = false || s.score.isNone then
        .error ("LLM Analysis failed: " ++
          "Invalid analysis response: missing required sentiment fields (overall and score)")
      else if strTruthy r.summary = false then
        .error ("LLM Analysis failed: " ++
          "Invalid analysis response: missing required summary field")
      else .ok r

/-- Embeds `LLMService.generateCoachingPlan` after the API call: `!agentId`
rejects an absent or empty agent id; `!overallPerformance ||
!overallPerformance.score || !overallPerformance.level` rejects an absent
block, a falsy score (absent or `0`) and a falsy level (absent or `""`).
Failures are wrapped as `Coaching plan generation failed: …`. -/
def llmGenerateCoachingPlan (provider : Except String CoachingResponse) :
    Except String CoachingResponse :=
  match provider with
  | .error msg => .error ("Coaching plan generation failed: " ++ msg)
  | .ok r =>
    if strTruthy r.agentId = false then
      .error ("Coaching plan generation failed: " ++
        "Invalid coaching plan response: missing required agentId field")
    else
      match r.overallPerformance with
      | none =>
        .error ("Coaching plan generation failed: " ++
          "Invalid coaching plan response: missing required overallPerformance fields (score and level)")
      | some op =>
        if numTruthy op.score = false || strTruthy op.level = false then
          .error ("Coaching plan generation failed: " ++
            "Invalid coaching plan response: missing required overallPerformance fields (score and level)")
        else .ok r

/-! ## Upload service (`services/uploadService.js`) -/

/-- The incoming multipart file as multer presents it to the filter. -/
structure IncomingFile where
  originalname : String
  mimetype : String
  size : Nat
  deriving Repr, DecidableEq

/-- Embeds `config.upload.allowedTypes`. -/
def allowedTypes : List String := ["audio/wav", "audio/mpeg", "audio/mp3"]

/-- The extension allow-list of `UploadService.fileFilter`. -/
def allowedExtensions : List String := [".wav", ".mp3", ".mpeg", ".mp4", ".flac"]

/-- Embeds `path.extname`: the suffix of the basename from its last dot, or `""`
when there is no dot past the basename's first character. -/
def extname (s : String) : String :=
  let b := (s.data.reverse.takeWhile fun c => c ≠ '/').reverse
  let revTail := b.reverse.takeWhile fun c => c ≠ '.'
  if revTail.length = b.length then ""
  else if revTail.length = b.length - 1 then ""
  else String.mk ('.' :: revTail.reverse)

/-- Embeds `toLowerCase`, acting on the character data (equivalent to
`String.toLower`, stated this way so that the kernel can evaluate it). -/
def lowerCase (s : String) : String := String.mk (s.data.map Char.toLower)

/-- The outcome of multer's file filter. -/
inductive FilterResult where
  | accepted
  | rejected (code : String) (message : String)
  deriving Repr, DecidableEq

/-- Embeds `UploadService.fileFilter`: mimetype against the allow-list first
(`INVALID_FILE_TYPE`), then the lower-cased extension of the original name
against the extension allow-list (`INVALID_FILE_EXTENSION`). -/
def fileFilter (f : IncomingFile) : FilterResult :=
  if (f.mimetype ∈ allowedTypes : Bool) = false then
    .rejected "INVALID_FILE_TYPE"
      ("Invalid file type. Allowed types: " ++ ", ".intercalate allowedTypes)
  else if (lowerCase (extname f.originalname) ∈ allowedExtensions : Bool) = false then
    .rejected "INVALID_FILE_EXTENSION"
      ("Invalid file extension. Allowed extensions: " ++ ", ".intercalate allowedExtensions)
  else .accepted

/-! ## HTTP responses and store helpers -/

/-- An HTTP JSON response: status code, `success` flag, `message`, optional
`error` text and optional typed payload. -/
structure Resp (α : Type) where
  status : Nat
  success : Bool
  message : String
  error : Option String
  data : Option α
  deriving Repr, DecidableEq

/-- Outcome of one controller operation: the response, the store after the
request, and how many document-store accesses (reads or writes) were
performed.  A `save` rejected by the Mongoose validators never reaches the
store and is not counted. -/
structure OpOut (α : Type) where
  resp : Resp α
  store : Store
  accesses : Nat
  deriving Repr, DecidableEq

/-- Embeds `AudioFile.findById`. -/
def findAudioFile (s : Store) (id : String) : Option AudioFile :=
  s.audioFiles.find? fun a => a.oid = id

/-- Embeds `Transcript.findOne({ audioFileId })`. -/
def findTranscriptByAudio (s : Store) (audioFileId : String) : Option TranscriptDoc :=
  s.transcripts.find? fun t => t.audioFileId = audioFileId

/-- Embeds `AudioFile.findByIdAndUpdate(id, …)` as a pointwise update of the
collection. -/
def mapAudioFile (s : Store) (id : String) (f : AudioFile → AudioFile) : Store :=
  { s with audioFiles := s.audioFiles.map fun a => if a.oid = id then f a else a }

/-! ## Transcript controller (`controllers/transcriptController.js`) -/

/-- Payload of `POST /api/transcript/:audioFileId`: either the conflict
payload carrying the existing transcript id, or the created transcript. -/
inductive TranscribeData where
  | conflict (transcriptId : String)
  | created (t : TranscriptDoc)
  deriving Repr, DecidableEq

/-- Embeds `TranscriptController.transcribeAudio`: Joi language validation, id
shape check, audio-file existence, transcript-conflict check, status to
`processing`, STT call, persist + status `completed` with discovered
duration on success, status `failed` and a 500 on failure. -/
def transcribeAudio (qexp : ℚ → ℚ) (provider : Except String WhisperResult)
    (store : Store) (audioFileId language newId : String) (procTime : ℚ) :
    OpOut TranscribeData :=
  if (language ∈ supportedLanguages : Bool) = false then
    ⟨⟨400, false, "Validation error", some "language is not supported", none⟩, store, 0⟩
  else if isValidId audioFileId = false then
    ⟨⟨400, false, "Invalid audio file ID format", none, none⟩, store, 0⟩
  else
    match findAudioFile store audioFileId with
    | none => ⟨⟨404, false, "Audio file not found", none, none⟩, store, 1⟩
    | some _audioFile =>
      match findTranscriptByAudio store audioFileId with
      | some existing =>
        ⟨⟨409, false, "Transcript already exists for this audio file", none,
          some (.conflict existing.oid)⟩, store, 2⟩
      | none =>
        let store1 := mapAudioFile store audioFileId fun a => { a with status := "processing" }
        match sttTranscribeAudio qexp provider language procTime with
        | .error msg =>
          ⟨⟨500, false, "Transcription failed", some msg, none⟩,
            mapAudioFile store1 audioFileId (fun a => { a with status := "failed" }), 4⟩
        | .ok tr =>
          let doc : TranscriptDoc :=
            ⟨newId, audioFileId, tr.text, tr.confidence, tr.segments, tr.language,
              tr.processingTime⟩
          if validTranscriptDoc doc then
            let store2 := { store1 with transcripts := store1.transcripts ++ [doc] }
            ⟨⟨201, true, "Audio file transcribed successfully", none, some (.created doc)⟩,
              mapAudioFile store2 audioFileId
                (fun a => { a with duration := some tr.duration, status := "completed" }), 5⟩
          else
            ⟨⟨500, false, "Transcription failed", some "Transcript validation failed", none⟩,
              mapAudioFile store1 audioFileId (fun a => { a with status := "failed" }), 4⟩

/-- Embeds `TranscriptController.getTranscript` (`GET /api/transcript/:id`). -/
def getTranscript (store : Store) (id : String) : OpOut TranscriptDoc :=
  if isValidId id = false then
    ⟨⟨400, false, "Invalid transcript ID format", none, none⟩, store, 0⟩
  else
    match store.transcripts.find? (fun t => t.oid = id) with
    | none => ⟨⟨404, false, "Transcript not found", none, none⟩, store, 1⟩
    | some t => ⟨⟨200, true, "", none, some t⟩, store, 1⟩

/-- Embeds `TranscriptController.getTranscriptByAudioFile`
(`GET /api/transcript/audio/:audioFileId`). -/
def getTranscriptByAudioFile (store : Store) (audioFileId : String) : OpOut TranscriptDoc :=
  if isValidId audioFileId = false then
    ⟨⟨400, false, "Invalid audio file ID format", none, none⟩, store, 0⟩
  else
    match findTranscriptByAudio store audioFileId with
    | none => ⟨⟨404, false, "Transcript not found for this audio file", none, none⟩, store, 1⟩
    | some t => ⟨⟨200, true, "", none, some t⟩, store, 1⟩

/-- The body of `PUT /api/transcript/:id` as the controller destructures
it; segment entries reuse the stored optional-field shape. -/
structure StoredSegmentInput where
  text : Option String
  start : Option ℚ
  stop : Option ℚ
  confidence : Option ℚ
  deriving Repr, DecidableEq

/-- Joi validation of one segment entry: `text`, `start ≥ 0`, `end ≥ 0`
required, `confidence` within `[0, 1]` when present (Joi strings reject
`""`). -/
def validSegmentInput (s : StoredSegmentInput) : Bool :=
  (match s.text with | some t => t ≠ "" | none => false) &&
  (match s.start with | some q => decide (0 ≤ q) | none => false) &&
  (match s.stop with | some q => decide (0 ≤ q) | none => false) &&
  (match s.confidence with
   | none => true
   | some c => decide (0 ≤ c) && decide (c ≤ 1))

/-- Body of `PUT /api/transcript/:id`. -/
structure UpdateTranscriptBody where
  text : Option String
  segments : Option (List StoredSegmentInput)
  deriving Repr, DecidableEq

/-- Joi validation of the update body: `text` required non-empty,
`segments` an optional list of valid entries. -/
def validUpdateTranscriptBody (b : UpdateTranscriptBody) : Bool :=
  (match b.text with | some t => t ≠ "" | none => false) &&
  (match b.segments with | none => true | some l => l.all validSegmentInput)

/-- A body segment as persisted (cast to the stored shape; absent numeric
fields are stored as `0`-defaulted values by the embedding). -/
def castSegmentInput (s : StoredSegmentInput) : Segment :=
  ⟨s.text.getD "", s.start.getD 0, s.stop.getD 0, s.confidence.getD 0⟩

/-- Embeds `TranscriptController.updateTranscript` (`PUT /api/transcript/:id`):
Joi body validation, then id shape check, then `findByIdAndUpdate` setting
`text` and — when the body carries a segment array — `segments`. -/
def updateTranscript (store : Store) (id : String) (b : UpdateTranscriptBody) :
    OpOut TranscriptDoc :=
  if validUpdateTranscriptBody b = false then
    ⟨⟨400, false, "Validation error", some "invalid body", none⟩, store, 0⟩
  else if isValidId id = false then
    ⟨⟨400, false, "Invalid transcript ID format", none, none⟩, store, 0⟩
  else
    let upd : TranscriptDoc → TranscriptDoc := fun t =>
      { t with text := b.text.getD ""
               segments := match b.segments with
                 | some l => l.map castSegmentInput
                 | none => t.segments }
    match store.transcripts.find? (fun t => t.oid = id) with
    | none => ⟨⟨404, false, "Transcript not found", none, none⟩, store, 1⟩
    | some t =>
      ⟨⟨200, true, "Transcript updated successfully", none, some (upd t)⟩,
        { store with transcripts := store.transcripts.map fun u => if u.oid = id then upd u else u },
        1⟩

/-- Embeds `TranscriptController.deleteTranscript` (`DELETE /api/transcript/:id`). -/
def deleteTranscript (store : Store) (id : String) : OpOut Unit :=
  if isValidId id = false then
    ⟨⟨400, false, "Invalid transcript ID format", none, none⟩, store, 0⟩
  else
    match store.transcripts.find? (fun t => t.oid = id) with
    | none => ⟨⟨404, false, "Transcript not found", none, none⟩, store, 1⟩
    | some _ =>
      ⟨⟨200, true, "Transcript deleted successfully", none, none⟩,
        { store with transcripts := store.transcripts.filter fun t => t.oid ≠ id }, 1⟩

/-! ## Upload controller (`controllers/uploadController.js`) -/

/-- The multer + controller upload path (`POST /api/upload`): multer's
`fileFilter` first; an accepted file is stored under a generated name
(`newFilename`, modelling `uuid + extension`) and an `AudioFile` record
with status `uploaded` is saved.  A rejected file never reaches the
controller. -/
def uploadAudio (store : Store) (f : IncomingFile) (newFilename newId : String) :
    OpOut AudioFile :=
  match fileFilter f with
  | .rejected _ msg => ⟨⟨400, false, "Upload failed", some msg, none⟩, store, 0⟩
  | .accepted =>
    let doc : AudioFile :=
      { oid := newId
        originalName := f.originalname
        filename := newFilename
        path := "./uploads/" ++ newFilename
        mimetype := f.mimetype
        size := f.size
        duration := none
        status := "uploaded" }
    if validAudioFileDoc doc then
      ⟨⟨201, true, "Audio file uploaded successfully", none, some doc⟩,
        { store with audioFiles := store.audioFiles ++ [doc] }, 1⟩
    else
      ⟨⟨400, false, "Upload failed", some "AudioFile validation failed", none⟩, store, 0⟩

/-- Embeds `UploadController.getUploadInfo` (`GET /api/upload/:id`). -/
def getUploadInfo (store : Store) (id : String) : OpOut AudioFile :=
  if isValidId id = false then
    ⟨⟨400, false, "Invalid file ID format", none, none⟩, store, 0⟩
  else
    match findAudioFile store id with
    | none => ⟨⟨404, false, "Audio file not found", none, none⟩, store, 1⟩
    | some a => ⟨⟨200, true, "", none, some a⟩, store, 1⟩

/-- Embeds `UploadController.deleteUpload` (`DELETE /api/upload/:id`): look up,
best-effort file deletion (outside the store), then delete the record. -/
def deleteUpload (store : Store) (id : String) : OpOut Unit :=
  if isValidId id = false then
    ⟨⟨400, false, "Invalid file ID format", none, none⟩, store, 0⟩
  else
    match findAudioFile store id with
    | none => ⟨⟨404, false, "Audio file not found", none, none⟩, store, 1⟩
    | some _ =>
      ⟨⟨200, true, "Audio file deleted successfully", none, none⟩,
        { store with audioFiles := store.audioFiles.filter fun a => a.oid ≠ id }, 2⟩

/-- Embeds `UploadController.updateStatus` (`PATCH /api/upload/:id/status`): Joi
status validation, id shape check, unguarded `findByIdAndUpdate`. -/
def updateStatus (store : Store) (id status : String) : OpOut AudioFile :=
  if (status ∈ ["uploaded", "processing", "completed", "failed"] : Bool) = false then
    ⟨⟨400, false, "Validation error", some "status must be one of the allowed values", none⟩,
      store, 0⟩
  else if isValidId id = false then
    ⟨⟨400, false, "Invalid file ID format", none, none⟩, store, 0⟩
  else
    match findAudioFile store id with
    | none => ⟨⟨404, false, "Audio file not found", none, none⟩, store, 1⟩
    | some a =>
      ⟨⟨200, true, "Status updated successfully", none, some { a with status := status }⟩,
        mapAudioFile store id (fun u => { u with status := status }), 1⟩

/-! ## Analysis controller (`controllers/analysisController.js`) -/

/-- Payload of `POST /api/analysis/:transcriptId`. -/
inductive AnalyzeData where
  | conflict (analysisId : String)
  | created (a : AnalysisDoc)
  deriving Repr, DecidableEq

/-- Embeds `AnalysisController.analyzeTranscript`: id shape check, transcript
existence (with `audioFileId` populate), analysis-conflict check, LLM call
with post-hoc validation, then persist.  A transcript whose audio-file
reference no longer resolves makes the `audioFileId._id` access throw,
which the catch-all turns into a 500. -/
def analyzeTranscript (provider : Except String AnalysisResponse) (store : Store)
    (transcriptId newId : String) (procTime : ℚ) : OpOut AnalyzeData :=
  if isValidId transcriptId = false then
    ⟨⟨400, false, "Invalid transcript ID format", none, none⟩, store, 0⟩
  else
    match store.transcripts.find? (fun t => t.oid = transcriptId) with
    | none => ⟨⟨404, false, "Transcript not found", none, none⟩, store, 1⟩
    | some transcript =>
      match store.analyses.find? (fun a => a.transcriptId = transcriptId) with
      | some existing =>
        ⟨⟨409, false, "Analysis already exists for this transcript", none,
          some (.conflict existing.oid)⟩, store, 2⟩
      | none =>
        match llmAnalyzeTranscript provider with
        | .error msg => ⟨⟨500, false, "Analysis failed", some msg, none⟩, store, 2⟩
        | .ok r =>
          match findAudioFile store transcript.audioFileId with
          | none =>
            ⟨⟨500, false, "Analysis failed",
              some "Cannot read properties of null", none⟩, store, 2⟩
          | some af =>
            let doc : AnalysisDoc :=
              ⟨newId, transcriptId, af.oid, r.sentiment, r.customerSatisfaction,
                r.issueResolution, r.summary, procTime⟩
            if validAnalysisDoc doc then
              ⟨⟨201, true, "Transcript analyzed successfully", none, some (.created doc)⟩,
                { store with analyses := store.analyses ++ [doc] }, 3⟩
            else
              ⟨⟨500, false, "Analysis failed", some "Analysis validation failed", none⟩,
                store, 2⟩

/-- Embeds `AnalysisController.getAnalysis` (`GET /api/analysis/:id`). -/
def getAnalysis (store : Store) (id : String) : OpOut AnalysisDoc :=
  if isValidId id = false then
    ⟨⟨400, false, "Invalid analysis ID format", none, none⟩, store, 0⟩
  else
    match store.analyses.find? (fun a => a.oid = id) with
    | none => ⟨⟨404, false, "Analysis not found", none, none⟩, store, 1⟩
    | some a => ⟨⟨200, true, "", none, some a⟩, store, 1⟩

/-- Embeds `AnalysisController.getAnalysisByTranscript`
(`GET /api/analysis/transcript/:transcriptId`). -/
def getAnalysisByTranscript (store : Store) (transcriptId : String) : OpOut AnalysisDoc :=
  if isValidId transcriptId = false then
    ⟨⟨400, false, "Invalid transcript ID format", none, none⟩, store, 0⟩
  else
    match store.analyses.find? (fun a => a.transcriptId = transcriptId) with
    | none => ⟨⟨404, false, "Analysis not found for this transcript", none, none⟩, store, 1⟩
    | some a => ⟨⟨200, true, "", none, some a⟩, store, 1⟩

/-- Embeds `AnalysisController.deleteAnalysis` (`DELETE /api/analysis/:id`). -/
def deleteAnalysis (store : Store) (id : String) : OpOut Unit :=
  if isValidId id = false then
    ⟨⟨400, false, "Invalid analysis ID format", none, none⟩, store, 0⟩
  else
    match store.analyses.find? (fun a => a.oid = id) with
    | none => ⟨⟨404, false, "Analysis not found", none, none⟩, store, 1⟩
    | some _ =>
      ⟨⟨200, true, "Analysis deleted successfully", none, none⟩,
        { store with analyses := store.analyses.filter fun a => a.oid ≠ id }, 1⟩

/-! ## Coaching controller (`controllers/coachingController.js`) -/

/-- Payload of `POST /api/coaching/:analysisId`. -/
inductive CoachData where
  | conflict (coachingPlanId : String)
  | created (c : CoachingPlanDoc)
  deriving Repr, DecidableEq

/-- Embeds `CoachingController.generateCoachingPlan`: Joi agent-id validation
(the body value defaults to `agent_001` before validation), id shape
check, analysis existence (with populate), plan-conflict check, LLM call
with post-hoc validation, then persist. -/
def generateCoachingPlan (provider : Except String CoachingResponse) (store : Store)
    (analysisId agentId newId : String) : OpOut CoachData :=
  if agentId = "" then
    ⟨⟨400, false, "Validation error", some "agentId is not allowed to be empty", none⟩,
      store, 0⟩
  else if isValidId analysisId = false then
    ⟨⟨400, false, "Invalid analysis ID format", none, none⟩, store, 0⟩
  else
    match store.analyses.find? (fun a => a.oid = analysisId) with
    | none => ⟨⟨404, false, "Analysis not found", none, none⟩, store, 1⟩
    | some analysis =>
      match store.coachingPlans.find? (fun c => c.analysisId = analysisId) with
      | some existing =>
        ⟨⟨409, false, "Coaching plan already exists for this analysis", none,
          some (.conflict existing.oid)⟩, store, 2⟩
      | none =>
        match llmGenerateCoachingPlan provider with
        | .error msg =>
          ⟨⟨500, false, "Coaching plan generation failed", some msg, none⟩, store, 2⟩
        | .ok r =>
          match findAudioFile store analysis.audioFileId with
          | none =>
            ⟨⟨500, false, "Coaching plan generation failed",
              some "Cannot read properties of null", none⟩, store, 2⟩
          | some af =>
            let doc : CoachingPlanDoc :=
              ⟨newId, analysisId, af.oid, r.agentId, r.overallPerformance, r.customNotes⟩
            if validCoachingPlanDoc doc then
              ⟨⟨201, true, "Coaching plan generated successfully", none,
                some (.created doc)⟩,
                { store with coachingPlans := store.coachingPlans ++ [doc] }, 3⟩
            else
              ⟨⟨500, false, "Coaching plan generation failed",
                some "CoachingPlan validation failed", none⟩, store, 2⟩

/-- Embeds `CoachingController.getCoachingPlan` (`GET /api/coaching/:id`). -/
def getCoachingPlan (store : Store) (id : String) : OpOut CoachingPlanDoc :=
  if isValidId id = false then
    ⟨⟨400, false, "Invalid coaching plan ID format", none, none⟩, store, 0⟩
  else
    match store.coachingPlans.find? (fun c => c.oid = id) with
    | none => ⟨⟨404, false, "Coaching plan not found", none, none⟩, store, 1⟩
    | some c => ⟨⟨200, true, "", none, some c⟩, store, 1⟩

/-- Embeds `CoachingController.getCoachingPlanByAnalysis`
(`GET /api/coaching/analysis/:analysisId`). -/
def getCoachingPlanByAnalysis (store : Store) (analysisId : String) : OpOut CoachingPlanDoc :=
  if isValidId analysisId = false then
    ⟨⟨400, false, "Invalid analysis ID format", none, none⟩, store, 0⟩
  else
    match store.coachingPlans.find? (fun c => c.analysisId = analysisId) with
    | none => ⟨⟨404, false, "Coaching plan not found for this analysis", none, none⟩, store, 1⟩
    | some c => ⟨⟨200, true, "", none, some c⟩, store, 1⟩

/-- Body of `PUT /api/coaching/:id` as tracked by the embedding: the
`followUpPlan` and `actionItems` blocks are elided pass-through data, so
only `customNotes` is carried. -/
structure CoachingUpdateBody where
  customNotes : Option String
  deriving Repr, DecidableEq

/-- Joi validation of the tracked part of the coaching update body. -/
def validCoachingUpdateBody (b : CoachingUpdateBody) : Bool :=
  match b.customNotes with
  | none => true
  | some s => s ≠ ""

/-- Embeds `CoachingController.updateCoachingPlan` (`PUT /api/coaching/:id`): Joi
body validation, id shape check, merge update. -/
def updateCoachingPlan (store : Store) (id : String) (b : CoachingUpdateBody) :
    OpOut CoachingPlanDoc :=
  if validCoachingUpdateBody b = false then
    ⟨⟨400, false, "Validation error", some "invalid body", none⟩, store, 0⟩
  else if isValidId id = false then
    ⟨⟨400, false, "Invalid coaching plan ID format", none, none⟩, store, 0⟩
  else
    let upd : CoachingPlanDoc → CoachingPlanDoc := fun c =>
      { c with customNotes := match b.customNotes with
          | some s => some s
          | none => c.customNotes }
    match store.coachingPlans.find? (fun c => c.oid = id) with
    | none => ⟨⟨404, false, "Coaching plan not found", none, none⟩, store, 1⟩
    | some c =>
      ⟨⟨200, true, "Coaching plan updated successfully", none, some (upd c)⟩,
        { store with
            coachingPlans := store.coachingPlans.map fun u => if u.oid = id then upd u else u },
        1⟩

/-- Embeds `CoachingController.deleteCoachingPlan` (`DELETE /api/coaching/:id`). -/
def deleteCoachingPlan (store : Store) (id : String) : OpOut Unit :=
  if isValidId id = false then
    ⟨⟨400, false, "Invalid coaching plan ID format", none, none⟩, store, 0⟩
  else
    match store.coachingPlans.find? (fun c => c.oid = id) with
    | none => ⟨⟨404, false, "Coaching plan not found", none, none⟩, store, 1⟩
    | some _ =>
      ⟨⟨200, true, "Coaching plan deleted successfully", none, none⟩,
        { store with coachingPlans := store.coachingPlans.filter fun c => c.oid ≠ id }, 1⟩

/-! ## Paginated list endpoints

`page`/`limit` arrive through `parseInt(q) || default`, which can never
produce `0`; a negative value makes the Mongo `skip` stage throw, so every
response that actually carries a pagination block has `page, limit ≥ 1` —
the embedded operations take them as naturals.  `Math.ceil(total / limit)`
is `(total + limit - 1) / limit` over naturals for a positive `limit`.
The Mongo sort stage only reorders the filtered collection and is passed
in as `sortFn`. -/

/-- The `pagination` block of a list response. -/
structure Pagination where
  current : Nat
  total : Nat
  limit : Nat
  totalItems : Nat
  hasNext : Bool
  hasPrev : Bool
  deriving Repr, DecidableEq

/-- Items plus pagination block of a list response. -/
structure ListResult (α : Type) where
  items : List α
  pagination : Pagination
  deriving Repr, DecidableEq

/-- The pagination block the controllers compute: `totalPages =
Math.ceil(total / limit)`, `hasNext = page < totalPages`,
`hasPrev = page > 1`. -/
def paginationFor (page limit totalItems : Nat) : Pagination :=
  let totalPages := (totalItems + limit - 1) / limit
  ⟨page, totalPages, limit, totalItems, decide (page < totalPages), decide (1 < page)⟩

/-- One optional single-field equality filter (`if (req.query.x) filter.x
= req.query.x`): an absent or empty query value filters nothing. -/
def matchesQ (q : Option String) (v : String) : Bool :=
  if strTruthy q then v = q.getD "" else true

/-- Embeds `UploadController.getUploads` (`GET /api/upload`): status/mimetype
filters, sort, `skip ((page-1)*limit)`, `limit`, and the pagination block
over the filtered count. -/
def getUploads (store : Store) (statusQ mimetypeQ : Option String)
    (sortFn : List AudioFile → List AudioFile) (page limit : Nat) :
    ListResult AudioFile :=
  let filtered := store.audioFiles.filter fun a =>
    matchesQ statusQ a.status && matchesQ mimetypeQ a.mimetype
  ⟨((sortFn filtered).drop ((page - 1) * limit)).take limit,
    paginationFor page limit filtered.length⟩

/-- Embeds `AnalysisController.getAnalyses` (`GET /api/analysis`): sentiment /
minSatisfaction / resolved filters (a `$gte` or equality on a missing
nested field matches nothing), sort, skip, limit, pagination block. -/
def getAnalyses (store : Store) (sentimentQ : Option String)
    (minSatisfactionQ : Option ℚ) (resolvedQ : Option Bool)
    (sortFn : List AnalysisDoc → List AnalysisDoc) (page limit : Nat) :
    ListResult AnalysisDoc :=
  let filtered := store.analyses.filter fun a =>
    (if strTruthy sentimentQ then
      match a.sentiment with
      | some s => s.overall = some (sentimentQ.getD "")
      | none => false
     else true) &&
    (match minSatisfactionQ with
     | none => true
     | some v =>
       match a.customerSatisfaction with
       | some cs => match cs.score with
         | some q => decide (v ≤ q)
         | none => false
       | none => false) &&
    (match resolvedQ with
     | none => true
     | some b =>
       match a.issueResolution with
       | some ir => ir.wasResolved = some b
       | none => false)
  ⟨((sortFn filtered).drop ((page - 1) * limit)).take limit,
    paginationFor page limit filtered.length⟩

/-! ## Spec-side definitions

These definitions follow the specification's words, for comparison with
the embedded source functions. -/

/-- Spec wording (§4.2): the duration-weighted average of the per-segment
confidences of a stored segment list, weights being each segment's end
minus start time. -/
def specDurationWeightedAvg (segs : List Segment) : ℚ :=
  (segs.map fun s => s.confidence * (s.stop - s.start)).sum /
    (segs.map fun s => s.stop - s.start).sum

/-- Amended success condition for coaching-plan generation, following the
code rather than bare field presence: `agentId` a present non-empty
string, `overallPerformance` present, its `score` present, non-zero and
within `[0, 100]`, its `level` a present member of the five-value enum. -/
def coachingSuccessCond (r : CoachingResponse) : Bool :=
  strTruthy r.agentId &&
  (match r.overallPerformance with
   | none => false
   | some op =>
     (match op.score with
      | some q => decide (q ≠ 0) && decide (0 ≤ q) && decide (q ≤ 100)
      | none => false) &&
     (match op.level with
      | some l =>
        (l ∈ ["excellent", "good", "average", "needs_improvement", "poor"] : Bool)
      | none => false))

/-! ## Helper lemmas -/

/-- Folding `+ f s` over a list from `a` is `a` plus the sum of the
mapped list. -/
theorem foldl_add_eq_sum {α : Type} (f : α → ℚ) :
    ∀ (l : List α) (a : ℚ), l.foldl (fun acc s => acc + f s) a = a + (l.map f).sum := by
  intro l
  induction l with
  | nil => intro a; simp
  | cons x xs ih =>
    intro a
    simp only [List.foldl_cons, List.map_cons, List.sum_cons]
    rw [ih]
    ring

/-- Two successive single-document updates of the same audio file compose
pointwise when the first preserves the id. -/
theorem mapAudioFile_comp (s : Store) (id : String) (f g : AudioFile → AudioFile)
    (hg : ∀ a, (g a).oid = a.oid) :
    mapAudioFile (mapAudioFile s id g) id f =
      { s with audioFiles := s.audioFiles.map fun a => if a.oid = id then f (g a) else a } := by
  simp only [mapAudioFile, List.map_map]
  congr 1
  refine List.map_congr_left fun a _ => ?_
  by_cases h : a.oid = id
  · simp [Function.comp, h, hg]
  · simp [Function.comp, h]

/-- A request rejected with a 400 without touching the document store. -/
def rejectedNoAccess {α : Type} (store : Store) (o : OpOut α) : Prop :=
  o.resp.status = 400 ∧ o.accesses = 0 ∧ o.store = store

instance {α : Type} [DecidableEq α] (store : Store) (o : OpOut α) :
    Decidable (rejectedNoAccess store o) := by
  unfold rejectedNoAccess; infer_instance

/-! ## Concrete fixtures (used by witnesses and counterexamples) -/

/-- A well-formed 24-hex id. -/
def idA : String := "aaaaaaaaaaaaaaaaaaaaaaaa"

/-- A second well-formed 24-hex id. -/
def idB : String := "bbbbbbbbbbbbbbbbbbbbbbbb"

/-- A third well-formed 24-hex id. -/
def idC : String := "cccccccccccccccccccccccc"

/-- A fourth well-formed 24-hex id. -/
def idD : String := "dddddddddddddddddddddddd"

/-- A stored audio file. -/
def afA : AudioFile :=
  ⟨idA, "call.wav", "gen.wav", "./uploads/gen.wav", "audio/wav", 100, none, "uploaded"⟩

/-- A stored transcript for `afA` (integral rationals keep every fixture
kernel-computable). -/
def trB : TranscriptDoc := ⟨idB, idA, "hello world", 1, [], "en", 5⟩

/-- A schema-valid stored analysis for `trB`. -/
def anC : AnalysisDoc :=
  ⟨idC, idB, idA, some ⟨some "positive", some (some 1), some 1⟩, none, none,
    some "fine call", 7⟩

/-- A schema-valid stored coaching plan for `anC`. -/
def cpD : CoachingPlanDoc :=
  ⟨idD, idC, idA, some "agent_007", some ⟨some 80, some "good"⟩, none⟩

theorem C8_invalid_id_witness_aux : isValidId "abc" = false := by decide

/-! ## C8: malformed ids are rejected before any store access -/

/-- C8: for every id-parameterized operation on any of the four resources
(get, update, delete, or stage-create by id), an id that is not a
24-character hexadecimal string is rejected with HTTP 400 with zero
document-store accesses and an unchanged store. -/
theorem invalid_id_rejected_before_lookup (store : Store) (id : String)
    (h : isValidId id = false) (qexp : ℚ → ℚ) (provider : Except String WhisperResult)
    (aprov : Except String AnalysisResponse) (cprov : Except String CoachingResponse)
    (language status newId agentId : String) (procTime : ℚ)
    (tb : UpdateTranscriptBody) (cb : CoachingUpdateBody) :
    rejectedNoAccess store (getUploadInfo store id) ∧
    rejectedNoAccess store (deleteUpload store id) ∧
    rejectedNoAccess store (updateStatus store id status) ∧
    rejectedNoAccess store (transcribeAudio qexp provider store id language newId procTime) ∧
    rejectedNoAccess store (getTranscript store id) ∧
    rejectedNoAccess store (getTranscriptByAudioFile store id) ∧
    rejectedNoAccess store (updateTranscript store id tb) ∧
    rejectedNoAccess store (deleteTranscript store id) ∧
    rejectedNoAccess store (analyzeTranscript aprov store id newId procTime) ∧
    rejectedNoAccess store (getAnalysis store id) ∧
    rejectedNoAccess store (getAnalysisByTranscript store id) ∧
    rejectedNoAccess store (deleteAnalysis store id) ∧
    rejectedNoAccess store (generateCoachingPlan cprov store id agentId newId) ∧
    rejectedNoAccess store (getCoachingPlan store id) ∧
    rejectedNoAccess store (getCoachingPlanByAnalysis store id) ∧
    rejectedNoAccess store (updateCoachingPlan store id cb) ∧
    rejectedNoAccess store (deleteCoachingPlan store id) := by
  refine ⟨?_, ?_, ?_, ?_, ?_, ?_, ?_, ?_, ?_, ?_, ?_, ?_, ?_, ?_, ?_, ?_, ?_⟩
  · simp [getUploadInfo, h, rejectedNoAccess]
  · simp [deleteUpload, h, rejectedNoAccess]
  · by_cases hs : status ∈ ["uploaded", "processing", "completed", "failed"] <;>
      simp [updateStatus, h, hs, rejectedNoAccess]
  · cases hl : (language ∈ supportedLanguages : Bool) <;>
      simp [transcribeAudio, h, hl, rejectedNoAccess]
  · simp [getTranscript, h, rejectedNoAccess]
  · simp [getTranscriptByAudioFile, h, rejectedNoAccess]
  · cases hb : validUpdateTranscriptBody tb <;>
      simp [updateTranscript, h, hb, rejectedNoAccess]
  · simp [deleteTranscript, h, rejectedNoAccess]
  · simp [analyzeTranscript, h, rejectedNoAccess]
  · simp [getAnalysis, h, rejectedNoAccess]
  · simp [getAnalysisByTranscript, h, rejectedNoAccess]
  · simp [deleteAnalysis, h, rejectedNoAccess]
  · by_cases ha : agentId = "" <;>
      simp [generateCoachingPlan, h, ha, rejectedNoAccess]
  · simp [getCoachingPlan, h, rejectedNoAccess]
  · simp [getCoachingPlanByAnalysis, h, rejectedNoAccess]
  · cases hb : validCoachingUpdateBody cb <;>
      simp [updateCoachingPlan, h, hb, rejectedNoAccess]
  · simp [deleteCoachingPlan, h, rejectedNoAccess]

/-- Witness for C8 at the concrete id `"abc"` on a one-file store. -/
theorem invalid_id_rejected_before_lookup_witness :
    isValidId "abc" = false ∧
      rejectedNoAccess ⟨[afA], [], [], []⟩ (getUploadInfo ⟨[afA], [], [], []⟩ "abc") ∧
      rejectedNoAccess ⟨[afA], [], [], []⟩
        (transcribeAudio id (.error "x") ⟨[afA], [], [], []⟩ "abc" "en" idB 1) := by
  have h := invalid_id_rejected_before_lookup ⟨[afA], [], [], []⟩ "abc"
    C8_invalid_id_witness_aux id (.error "x") (.error "x") (.error "x")
    "en" "uploaded" idB "agent_007" 1 ⟨some "t", none⟩ ⟨none⟩
  exact ⟨C8_invalid_id_witness_aux, h.1, h.2.2.2.1⟩

/-! ## C1: existing downstream record makes stage creation return 409 -/

/-- C1: at each pipeline stage (transcription per AudioFile, analysis per
Transcript, coaching per Analysis), when a downstream record already
exists for the given upstream id, the create call answers 409 carrying the
existing record's id and leaves the store unchanged, so no new downstream
record is created. -/
theorem stage_conflict_returns_409_and_creates_nothing :
    (∀ (qexp : ℚ → ℚ) (provider : Except String WhisperResult) (store : Store)
        (audioFileId language newId : String) (procTime : ℚ) (af : AudioFile)
        (t0 : TranscriptDoc),
        language ∈ supportedLanguages →
        isValidId audioFileId = true →
        findAudioFile store audioFileId = some af →
        findTranscriptByAudio store audioFileId = some t0 →
        (transcribeAudio qexp provider store audioFileId language newId procTime).resp.status
            = 409 ∧
          (transcribeAudio qexp provider store audioFileId language newId procTime).resp.data
            = some (.conflict t0.oid) ∧
          (transcribeAudio qexp provider store audioFileId language newId procTime).store
            = store) ∧
    (∀ (provider : Except String AnalysisResponse) (store : Store)
        (transcriptId newId : String) (procTime : ℚ) (tr : TranscriptDoc)
        (a0 : AnalysisDoc),
        isValidId transcriptId = true →
        store.transcripts.find? (fun t => t.oid = transcriptId) = some tr →
        store.analyses.find? (fun a => a.transcriptId = transcriptId) = some a0 →
        (analyzeTranscript provider store transcriptId newId procTime).resp.status = 409 ∧
          (analyzeTranscript provider store transcriptId newId procTime).resp.data
            = some (.conflict a0.oid) ∧
          (analyzeTranscript provider store transcriptId newId procTime).store = store) ∧
    (∀ (provider : Except String CoachingResponse) (store : Store)
        (analysisId agentId newId : String) (an : AnalysisDoc) (c0 : CoachingPlanDoc),
        agentId ≠ "" →
        isValidId analysisId = true →
        store.analyses.find? (fun a => a.oid = analysisId) = some an →
        store.coachingPlans.find? (fun c => c.analysisId = analysisId) = some c0 →
        (generateCoachingPlan provider store analysisId agentId newId).resp.status = 409 ∧
          (generateCoachingPlan provider store analysisId agentId newId).resp.data
            = some (.conflict c0.oid) ∧
          (generateCoachingPlan provider store analysisId agentId newId).store = store) := by
  refine ⟨?_, ?_, ?_⟩
  · intro qexp provider store audioFileId language newId procTime af t0 hl hid haf ht
    simp [transcribeAudio, hl, hid, haf, ht]
  · intro provider store transcriptId newId procTime tr a0 hid htr ha
    simp [analyzeTranscript, hid, htr, ha]
  · intro provider store analysisId agentId newId an c0 hag hid han hc
    simp [generateCoachingPlan, hag, hid, han, hc]

/-- Witness for C1: concrete conflicting stores for all three stages. -/
theorem stage_conflict_returns_409_witness :
    ((transcribeAudio id (.error "x") ⟨[afA], [trB], [], []⟩ idA "en" idC 1).resp.status = 409 ∧
      (transcribeAudio id (.error "x") ⟨[afA], [trB], [], []⟩ idA "en" idC 1).store
        = ⟨[afA], [trB], [], []⟩) ∧
    (analyzeTranscript (.error "x") ⟨[afA], [trB], [anC], []⟩ idB idD 1).resp.status = 409 ∧
    (generateCoachingPlan (.error "x") ⟨[afA], [trB], [anC], [cpD]⟩ idC "agent_007"
      idD).resp.status = 409 := by
  have h1 := stage_conflict_returns_409_and_creates_nothing.1 id (.error "x")
    ⟨[afA], [trB], [], []⟩ idA "en" idC 1 afA trB (by decide) (by decide) (by decide)
    (by decide)
  have h2 := stage_conflict_returns_409_and_creates_nothing.2.1 (.error "x")
    ⟨[afA], [trB], [anC], []⟩ idB idD 1 trB anC (by decide) (by decide) (by decide)
  have h3 := stage_conflict_returns_409_and_creates_nothing.2.2 (.error "x")
    ⟨[afA], [trB], [anC], [cpD]⟩ idC "agent_007" idD anC cpD (by decide) (by decide)
    (by decide) (by decide)
  exact ⟨⟨h1.1, h1.2.2⟩, h2.1, h3.1⟩

/-! ## C10: a transcription conflict leaves the AudioFile untouched -/

/-- C10: when transcription answers 409 because a transcript already
exists, the whole store — in particular every field of the AudioFile
record — is unchanged: the `processing` status update sits after the
existence check. -/
theorem transcription_conflict_leaves_audiofile_unchanged
    (qexp : ℚ → ℚ) (provider : Except String WhisperResult) (store : Store)
    (audioFileId language newId : String) (procTime : ℚ) (af : AudioFile)
    (t0 : TranscriptDoc)
    (hl : language ∈ supportedLanguages)
    (hid : isValidId audioFileId = true)
    (haf : findAudioFile store audioFileId = some af)
    (ht : findTranscriptByAudio store audioFileId = some t0) :
    (transcribeAudio qexp provider store audioFileId language newId procTime).resp.status
        = 409 ∧
      (transcribeAudio qexp provider store audioFileId language newId procTime).store
        = store ∧
      findAudioFile
          (transcribeAudio qexp provider store audioFileId language newId procTime).store
          audioFileId = some af := by
  have hst :
      (transcribeAudio qexp provider store audioFileId language newId procTime).store
        = store := by
    simp [transcribeAudio, hl, hid, haf, ht]
  refine ⟨?_, hst, ?_⟩
  · simp [transcribeAudio, hl, hid, haf, ht]
  · rw [hst]; exact haf

/-- Witness for C10 at a concrete conflicting store. -/
theorem transcription_conflict_leaves_audiofile_unchanged_witness :
    (transcribeAudio id (.ok ⟨some "hi", none, some "en", some 2⟩) ⟨[afA], [trB], [], []⟩
        idA "en" idC 1).store = ⟨[afA], [trB], [], []⟩ :=
  (transcription_conflict_leaves_audiofile_unchanged id (.ok ⟨some "hi", none, some "en", some 2⟩)
    ⟨[afA], [trB], [], []⟩ idA "en" idC 1 afA trB (by decide) (by decide) (by decide)
    (by decide)).2.1

/-! ## C3: STT provider failure -/

/-- C3: when the request has passed the existence and conflict checks and
the STT provider call fails, the AudioFile status becomes `failed`, no
transcript is created, and the request fails with a 500 whose error text
is the service wrapper around the provider's own message (so it contains
the provider's text). -/
theorem stt_failure_sets_failed_and_propagates
    (qexp : ℚ → ℚ) (store : Store) (audioFileId language newId msg : String)
    (procTime : ℚ) (af : AudioFile)
    (hl : language ∈ supportedLanguages)
    (hid : isValidId audioFileId = true)
    (haf : findAudioFile store audioFileId = some af)
    (hnt : findTranscriptByAudio store audioFileId = none) :
    (transcribeAudio qexp (.error msg) store audioFileId language newId procTime).resp.status
        = 500 ∧
      (transcribeAudio qexp (.error msg) store audioFileId language newId
          procTime).resp.success = false ∧
      (transcribeAudio qexp (.error msg) store audioFileId language newId procTime).resp.error
        = some ("Transcription failed: " ++ msg) ∧
      (transcribeAudio qexp (.error msg) store audioFileId language newId
          procTime).store.transcripts = store.transcripts ∧
      (transcribeAudio qexp (.error msg) store audioFileId language newId
          procTime).store.audioFiles
        = store.audioFiles.map
            (fun a => if a.oid = audioFileId then { a with status := "failed" } else a) := by
  have hout : transcribeAudio qexp (.error msg) store audioFileId language newId procTime =
      ⟨⟨500, false, "Transcription failed", some ("Transcription failed: " ++ msg), none⟩,
        mapAudioFile
          (mapAudioFile store audioFileId fun a => { a with status := "processing" })
          audioFileId (fun a => { a with status := "failed" }), 4⟩ := by
    simp [transcribeAudio, hl, hid, haf, hnt, sttTranscribeAudio]
  refine ⟨by rw [hout], by rw [hout], by rw [hout], ?_, ?_⟩
  · rw [hout]; simp [mapAudioFile]
  · rw [hout, mapAudioFile_comp store audioFileId
      (fun a => { a with status := "failed" }) (fun a => { a with status := "processing" })
      (fun a => rfl)]

/-- Witness for C3: a concrete provider failure `boom` on a one-file
store. -/
theorem stt_failure_sets_failed_witness :
    (transcribeAudio id (.error "boom") ⟨[afA], [], [], []⟩ idA "en" idB 3).resp.error
        = some ("Transcription failed: " ++ "boom") ∧
      (transcribeAudio id (.error "boom") ⟨[afA], [], [], []⟩ idA "en" idB 3).store.transcripts
        = [] := by
  have h := stt_failure_sets_failed_and_propagates id ⟨[afA], [], [], []⟩ idA "en" idB
    "boom" 3 afA (by decide) (by decide) (by decide) (by decide)
  exact ⟨h.2.2.1, h.2.2.2.1⟩

/-! ## C2: STT provider success (corrected)

The claim as stated fails: a provider success whose text is empty builds a
transcript that the Mongoose `required` validator on `text` rejects, so no
transcript is persisted and the AudioFile ends `failed`, not `completed`.
The amended claim conditions persistence on the built document passing the
Transcript schema validation. -/

/-- Counterexample to C2 as stated: the provider call succeeds with empty
text, yet the request answers 500, persists no transcript, and leaves the
AudioFile `failed`. -/
theorem stt_success_empty_text_counterexample :
    (transcribeAudio id (.ok ⟨some "", none, none, none⟩) ⟨[afA], [], [], []⟩ idA "en"
        idB 3).resp.status = 500 ∧
      (transcribeAudio id (.ok ⟨some "", none, none, none⟩) ⟨[afA], [], [], []⟩ idA "en"
          idB 3).store.transcripts = [] ∧
      (transcribeAudio id (.ok ⟨some "", none, none, none⟩) ⟨[afA], [], [], []⟩ idA "en"
          idB 3).store.audioFiles = [{ afA with status := "failed" }] := by
  decide

/-- C2 (amended): when transcription passes the existence and conflict
checks and the STT provider call succeeds, *and the resulting document
passes the Transcript schema validation* (non-empty text, confidence
within `[0, 1]`), a transcript holding the provider-derived text,
confidence, segments, language and latency is appended, and the AudioFile
is set to `completed` with the discovered duration. -/
theorem stt_success_persists_transcript
    (qexp : ℚ → ℚ) (provider : Except String WhisperResult) (store : Store)
    (audioFileId language newId : String) (procTime : ℚ) (af : AudioFile)
    (tr : TranscriptionResult)
    (hl : language ∈ supportedLanguages)
    (hid : isValidId audioFileId = true)
    (haf : findAudioFile store audioFileId = some af)
    (hnt : findTranscriptByAudio store audioFileId = none)
    (hstt : sttTranscribeAudio qexp provider language procTime = .ok tr)
    (hvalid : validTranscriptDoc
      ⟨newId, audioFileId, tr.text, tr.confidence, tr.segments, tr.language,
        tr.processingTime⟩ = true) :
    (transcribeAudio qexp provider store audioFileId language newId procTime).resp.status
        = 201 ∧
      (transcribeAudio qexp provider store audioFileId language newId
          procTime).store.transcripts
        = store.transcripts ++
            [⟨newId, audioFileId, tr.text, tr.confidence, tr.segments, tr.language,
              tr.processingTime⟩] ∧
      (transcribeAudio qexp provider store audioFileId language newId
          procTime).store.audioFiles
        = store.audioFiles.map
            (fun a => if a.oid = audioFileId then
              { a with duration := some tr.duration, status := "completed" } else a) := by
  have hout : transcribeAudio qexp provider store audioFileId language newId procTime =
      ⟨⟨201, true, "Audio file transcribed successfully", none,
          some (.created ⟨newId, audioFileId, tr.text, tr.confidence, tr.segments,
            tr.language, tr.processingTime⟩)⟩,
        mapAudioFile
          { mapAudioFile store audioFileId (fun a => { a with status := "processing" }) with
              transcripts :=
                (mapAudioFile store audioFileId
                    (fun a => { a with status := "processing" })).transcripts ++
                  [⟨newId, audioFileId, tr.text, tr.confidence, tr.segments, tr.language,
                    tr.processingTime⟩] }
          audioFileId
          (fun a => { a with duration := some tr.duration, status := "completed" }), 5⟩ := by
    simp [transcribeAudio, hl, hid, haf, hnt, hstt, hvalid]
  refine ⟨by rw [hout], ?_, ?_⟩
  · rw [hout]; simp [mapAudioFile]
  · rw [hout]
    have : ∀ s : Store,
        (mapAudioFile s audioFileId
            (fun a => { a with duration := some tr.duration, status := "completed" })).audioFiles
          = s.audioFiles.map
              (fun a => if a.oid = audioFileId then
                { a with duration := some tr.duration, status := "completed" } else a) := by
      intro s; simp [mapAudioFile]
    rw [this]
    show ((mapAudioFile store audioFileId fun a => { a with status := "processing" }).audioFiles).map _
        = _
    rw [show (mapAudioFile store audioFileId
        (fun a => { a with status := "processing" })).audioFiles
      = store.audioFiles.map
          (fun a => if a.oid = audioFileId then { a with status := "processing" } else a)
      from by simp [mapAudioFile]]
    rw [List.map_map]
    refine List.map_congr_left fun a _ => ?_
    by_cases h : a.oid = audioFileId
    · simp [Function.comp, h]
    · simp [Function.comp, h]

/-- Witness for C2 (amended): a concrete successful transcription of
`afA` that appends the transcript. -/
theorem stt_success_persists_transcript_witness :
    (transcribeAudio id (.ok ⟨some "hello", none, some "en", some 2⟩) ⟨[afA], [], [], []⟩
        idA "en" idB 3).resp.status = 201 ∧
      (transcribeAudio id (.ok ⟨some "hello", none, some "en", some 2⟩) ⟨[afA], [], [], []⟩
          idA "en" idB 3).store.transcripts.length = 1 := by
  have h := stt_success_persists_transcript id (.ok ⟨some "hello", none, some "en", some 2⟩)
    ⟨[afA], [], [], []⟩ idA "en" idB 3 afA
    ⟨"hello", calculateOverallConfidence id [], transformSegments id [],
      jsOrStr (some "en") "en", 2, 3⟩
    (by decide) (by decide) (by decide) (by decide) rfl
    (by norm_num [validTranscriptDoc, calculateOverallConfidence]; decide)
  exact ⟨h.1, by rw [h.2.1]; rfl⟩

/-! ## C4: analysis success requires the three sentiment/summary fields -/

/-- C4: an analysis request succeeds (201, record persisted) only if the
LLM response carries a present sentiment block with a non-null `overall`,
a non-null `score`, and a non-null `summary`; in every other case the
request fails and the store is unchanged.  (A *null* score slips past the
service's `=== undefined` check but is then rejected by the schema's
`required` validator at save time, so it still cannot be persisted.) -/
theorem analysis_success_requires_nonnull_fields
    (provider : Except String AnalysisResponse) (store : Store)
    (transcriptId newId : String) (procTime : ℚ) :
    ((analyzeTranscript provider store transcriptId newId procTime).resp.status = 201 →
      ∃ r s q m, provider = .ok r ∧ r.sentiment = some s ∧ (∃ o, s.overall = some o) ∧
        s.score = some (some q) ∧ r.summary = some m) ∧
    ((analyzeTranscript provider store transcriptId newId procTime).resp.status ≠ 201 →
      (analyzeTranscript provider store transcriptId newId procTime).store = store) := by
  cases hv : isValidId transcriptId with
  | false => constructor <;> simp [analyzeTranscript, hv]
  | true =>
  cases ht : store.transcripts.find? (fun t => t.oid = transcriptId) with
  | none => constructor <;> simp [analyzeTranscript, hv, ht]
  | some transcript =>
  cases ha : store.analyses.find? (fun a => a.transcriptId = transcriptId) with
  | some ex => constructor <;> simp [analyzeTranscript, hv, ht, ha]
  | none =>
  cases hp : provider with
  | error m =>
    constructor <;> simp [analyzeTranscript, llmAnalyzeTranscript, hv, ht, ha]
  | ok r =>
  cases hs : r.sentiment with
  | none =>
    constructor <;> simp [analyzeTranscript, llmAnalyzeTranscript, hv, ht, ha, hs]
  | some s =>
  cases hov : strTruthy s.overall with
  | false =>
    constructor <;> simp [analyzeTranscript, llmAnalyzeTranscript, hv, ht, ha, hs, hov]
  | true =>
  cases hsc : s.score with
  | none =>
    constructor <;> simp [analyzeTranscript, llmAnalyzeTranscript, hv, ht, ha, hs, hov, hsc]
  | some oq =>
  cases hsum : strTruthy r.summary with
  | false =>
    constructor <;>
      simp [analyzeTranscript, llmAnalyzeTranscript, hv, ht, ha, hs, hov, hsc, hsum]
  | true =>
  cases haf : findAudioFile store transcript.audioFileId with
  | none =>
    constructor <;>
      simp [analyzeTranscript, llmAnalyzeTranscript, hv, ht, ha, hs, hov, hsc, hsum, haf]
  | some af =>
  cases hvd : validAnalysisDoc
      ⟨newId, transcriptId, af.oid, some s, r.customerSatisfaction,
        r.issueResolution, r.summary, procTime⟩ with
  | false =>
    constructor <;>
      simp [analyzeTranscript, llmAnalyzeTranscript, hv, ht, ha, hs, hov, hsc, hsum, haf, hvd]
  | true =>
    constructor
    · intro _
      have hq : ∃ q, oq = some q := by
        rcases oq with _ | q
        · exfalso
          have hvd2 := hvd
          simp [validAnalysisDoc, hsc] at hvd2
        · exact ⟨q, rfl⟩
      have ho : ∃ o, s.overall = some o := by
        rcases hview : s.overall with _ | o
        · simp [strTruthy, hview] at hov
        · exact ⟨o, rfl⟩
      have hm : ∃ m, r.summary = some m := by
        rcases hview : r.summary with _ | m
        · simp [strTruthy, hview] at hsum
        · exact ⟨m, rfl⟩
      rcases hq with ⟨q, hqe⟩
      rcases hm with ⟨m, hme⟩
      exact ⟨r, s, q, m, rfl, hs, ho, by rw [hsc, hqe], hme⟩
    · intro hne
      exfalso
      apply hne
      simp [analyzeTranscript, llmAnalyzeTranscript, hv, ht, ha, hs, hov, hsc, hsum, haf, hvd]

/-- A well-formed LLM analysis response. -/
def anRespGood : AnalysisResponse :=
  ⟨some ⟨some "positive", some (some 1), some 1⟩, none, none, some "good call"⟩

/-- Witness for C4: a successful analysis exhibits the three non-null
fields, and a failing one leaves the concrete store unchanged. -/
theorem analysis_success_requires_nonnull_fields_witness :
    (∃ r s q m,
        (Except.ok anRespGood : Except String AnalysisResponse) = .ok r ∧
          r.sentiment = some s ∧ (∃ o, s.overall = some o) ∧ s.score = some (some q) ∧
          r.summary = some m) ∧
      (analyzeTranscript (.error "x") ⟨[afA], [trB], [], []⟩ idB idC 4).store
        = ⟨[afA], [trB], [], []⟩ :=
  ⟨(analysis_success_requires_nonnull_fields (.ok anRespGood) ⟨[afA], [trB], [], []⟩
      idB idC 4).1 (by decide),
    (analysis_success_requires_nonnull_fields (.error "x") ⟨[afA], [trB], [], []⟩
      idB idC 4).2 (by decide)⟩

/-! ## C5: coaching-plan success condition (corrected)

The claim as stated ("succeeds exactly when `agentId`,
`overallPerformance.score` and `overallPerformance.level` are present")
fails on the code: the service validates with JavaScript truthiness, so a
*present* score of `0` is rejected, and the schema validators additionally
require the score within `[0, 100]` and the level within the enum. -/

/-- Counterexample to C5 as stated: a response with all three fields
present whose score is `0` makes the call fail with 500 and persists no
coaching plan. -/
theorem coaching_present_zero_score_counterexample :
    (⟨some "agent_007", some ⟨some 0, some "poor"⟩, none⟩ :
        CoachingResponse).agentId.isSome = true ∧
      (⟨some "agent_007", some ⟨some 0, some "poor"⟩, none⟩ :
          CoachingResponse).overallPerformance.isSome = true ∧
      ((⟨some "agent_007", some ⟨some 0, some "poor"⟩, none⟩ :
          CoachingResponse).overallPerformance.getD ⟨none, none⟩).score.isSome = true ∧
      ((⟨some "agent_007", some ⟨some 0, some "poor"⟩, none⟩ :
          CoachingResponse).overallPerformance.getD ⟨none, none⟩).level.isSome = true ∧
      (generateCoachingPlan (.ok ⟨some "agent_007", some ⟨some 0, some "poor"⟩, none⟩)
          ⟨[afA], [trB], [anC], []⟩ idC "agent_007" idD).resp.status = 500 ∧
      (generateCoachingPlan (.ok ⟨some "agent_007", some ⟨some 0, some "poor"⟩, none⟩)
          ⟨[afA], [trB], [anC], []⟩ idC "agent_007" idD).store.coachingPlans = [] := by
  decide

/-- C5 (amended): past the existence and conflict checks, a coaching-plan
request with a resolvable audio-file reference succeeds exactly when the
response satisfies `coachingSuccessCond` — `agentId` a present non-empty
string, `overallPerformance.score` present, non-zero and within
`[0, 100]`, `overallPerformance.level` a present member of the level enum
(the untracked response blocks are assumed to cast cleanly) — and on
every failure no coaching plan is persisted. -/
theorem coaching_success_iff_cond
    (provider : Except String CoachingResponse) (store : Store)
    (analysisId agentId newId : String) (an : AnalysisDoc) (af : AudioFile)
    (r : CoachingResponse)
    (hag : agentId ≠ "")
    (hid : isValidId analysisId = true)
    (han : store.analyses.find? (fun a => a.oid = analysisId) = some an)
    (hnc : store.coachingPlans.find? (fun c => c.analysisId = analysisId) = none)
    (haf : findAudioFile store an.audioFileId = some af)
    (hp : provider = .ok r) :
    ((generateCoachingPlan provider store analysisId agentId newId).resp.status = 201 ↔
      coachingSuccessCond r = true) ∧
    ((generateCoachingPlan provider store analysisId agentId newId).resp.status ≠ 201 →
      (generateCoachingPlan provider store analysisId agentId newId).store.coachingPlans
        = store.coachingPlans) := by
  subst hp
  rcases r with ⟨ag, opb, notes⟩
  rcases ag with _ | s
  · constructor <;>
      simp [generateCoachingPlan, llmGenerateCoachingPlan, coachingSuccessCond, strTruthy,
        hag, hid, han, hnc]
  · by_cases hs : s = ""
    · constructor <;>
        simp [generateCoachingPlan, llmGenerateCoachingPlan, coachingSuccessCond, strTruthy,
          hag, hid, han, hnc, hs]
    · rcases opb with _ | ⟨sc, lv⟩
      · constructor <;>
          simp [generateCoachingPlan, llmGenerateCoachingPlan, coachingSuccessCond,
            strTruthy, hag, hid, han, hnc, hs]
      · rcases sc with _ | q
        · constructor <;>
            simp [generateCoachingPlan, llmGenerateCoachingPlan, coachingSuccessCond,
              strTruthy, numTruthy, hag, hid, han, hnc, hs]
        · by_cases hq : q = 0
          · constructor <;>
              simp [generateCoachingPlan, llmGenerateCoachingPlan, coachingSuccessCond,
                strTruthy, numTruthy, hag, hid, han, hnc, hs, hq]
          · rcases lv with _ | l
            · constructor <;>
                simp [generateCoachingPlan, llmGenerateCoachingPlan, coachingSuccessCond,
                  strTruthy, numTruthy, hag, hid, han, hnc, hs, hq]
            · by_cases hl : l = ""
              · constructor <;>
                  simp [generateCoachingPlan, llmGenerateCoachingPlan, coachingSuccessCond,
                    strTruthy, numTruthy, hag, hid, han, hnc, hs, hq, hl]
              · constructor <;>
                  (simp [generateCoachingPlan, llmGenerateCoachingPlan, validCoachingPlanDoc,
                    coachingSuccessCond, strTruthy, numTruthy, hag, hid, han, hnc, haf, hs,
                    hq, hl]
                   split_ifs with hok <;> simp_all)

/-- Witness for C5 (amended): a response meeting the amended condition
succeeds with 201 on a concrete store. -/
theorem coaching_success_iff_cond_witness :
    (generateCoachingPlan (.ok ⟨some "agent_007", some ⟨some 80, some "good"⟩, none⟩)
        ⟨[afA], [trB], [anC], []⟩ idC "agent_007" idD).resp.status = 201 :=
  (coaching_success_iff_cond (.ok ⟨some "agent_007", some ⟨some 80, some "good"⟩, none⟩)
    ⟨[afA], [trB], [anC], []⟩ idC "agent_007" idD anC afA
    ⟨some "agent_007", some ⟨some 80, some "good"⟩, none⟩
    (by decide) (by decide) (by decide) (by decide) (by decide) rfl).1.mpr (by decide)

/-! ## C6: overall confidence (corrected)

The defaulting part of the claim holds: a segment without `avg_logprob`
gets the constant `0.8`.  The averaging part fails as stated: the code
clamps the duration-weighted average at `1` (and falls back to `0.8` when
the total duration is not positive), so a stored per-segment confidence
above `1` — `Math.exp` of a positive `avg_logprob` — makes the overall
confidence differ from the weighted average. -/

/-- Counterexample to C6 as stated: one segment of duration `1` whose
`avg_logprob` maps to confidence `2` gives a duration-weighted average of
`2`, but the code reports `min 2 1 = 1`. -/
theorem overall_confidence_clamp_counterexample :
    calculateOverallConfidence (fun _ => 2) [⟨some "a", some 0, some 1, some 1⟩] = 1 ∧
      specDurationWeightedAvg
          (transformSegments (fun _ => 2) [⟨some "a", some 0, some 1, some 1⟩]) = 2 ∧
      (1 : ℚ) ≠ 2 := by
  refine ⟨?_, ?_, by norm_num⟩
  · norm_num [calculateOverallConfidence, segConfidence, segDuration]
  · norm_num [specDurationWeightedAvg, transformSegments, segConfidence]

/-- C6 (amended): segments without a provider confidence default to the
constant `0.8` (never a failure), the stored per-segment confidences are
exactly the defaulted ones, and for a non-empty segment list the overall
confidence is the duration-weighted average of the stored per-segment
confidences *clamped above at `1`* when the total duration is positive,
and the constant `0.8` otherwise. -/
theorem overall_confidence_characterization (qexp : ℚ → ℚ) (segs : List RawSegment)
    (hne : segs ≠ []) :
    ((0 < (segs.map segDuration).sum →
        calculateOverallConfidence qexp segs
          = min (specDurationWeightedAvg (transformSegments qexp segs)) 1) ∧
      ((segs.map segDuration).sum ≤ 0 → calculateOverallConfidence qexp segs = 0.8)) ∧
    (∀ s ∈ segs, s.avg_logprob = none → segConfidence qexp s = 0.8) ∧
    (transformSegments qexp segs).map Segment.confidence = segs.map (segConfidence qexp) := by
  have hemp : segs.isEmpty = false := by
    cases segs with
    | nil => exact absurd rfl hne
    | cons a l => rfl
  have htd := foldl_add_eq_sum segDuration segs 0
  have hwc := foldl_add_eq_sum (fun s => segConfidence qexp s * segDuration s) segs 0
  have hnum : ((transformSegments qexp segs).map fun s => s.confidence * (s.stop - s.start))
      = segs.map fun s => segConfidence qexp s * segDuration s := by
    simp [transformSegments, List.map_map, segDuration, Function.comp]
  have hden : ((transformSegments qexp segs).map fun s => s.stop - s.start)
      = segs.map segDuration := by
    simp [transformSegments, List.map_map, segDuration, Function.comp]
  refine ⟨⟨?_, ?_⟩, ?_, ?_⟩
  · intro hpos
    rw [calculateOverallConfidence]
    simp only [hemp, Bool.false_eq_true, if_false, htd, hwc, zero_add]
    rw [if_pos hpos, specDurationWeightedAvg, hnum, hden]
  · intro hnonpos
    rw [calculateOverallConfidence]
    simp only [hemp, Bool.false_eq_true, if_false, htd, hwc, zero_add]
    rw [if_neg (not_lt.mpr hnonpos)]
  · intro s _ hnone
    simp [segConfidence, hnone]
  · simp [transformSegments, List.map_map, Function.comp]

/-- Witness for C6 (amended) at one concrete segment of duration `2`. -/
theorem overall_confidence_characterization_witness :
    calculateOverallConfidence id [⟨some "a", some 0, some 2, none⟩]
      = min (specDurationWeightedAvg (transformSegments id [⟨some "a", some 0, some 2, none⟩]))
          1 :=
  (overall_confidence_characterization id [⟨some "a", some 0, some 2, none⟩]
    (by decide)).1.1 (by norm_num [segDuration])

/-! ## C7: upload validation and record creation -/

/-- C7: a file is accepted exactly when its declared MIME type is on the
allow-list and its lower-cased filename extension is on the extension
allow-list; a bad MIME type yields `INVALID_FILE_TYPE`, a good MIME type
with a bad extension yields `INVALID_FILE_EXTENSION`; and every accepted
upload (stored under a non-empty generated name) appends an AudioFile
record with status `uploaded` whose size is the uploaded byte size. -/
theorem upload_validation_and_creation (f : IncomingFile) (store : Store)
    (newFilename newId : String) (hnf : newFilename ≠ "") :
    (fileFilter f = .accepted ↔
      ((f.mimetype ∈ allowedTypes : Bool) = true ∧
        (lowerCase (extname f.originalname) ∈ allowedExtensions : Bool) = true)) ∧
    ((f.mimetype ∈ allowedTypes : Bool) = false →
      ∃ m, fileFilter f = .rejected "INVALID_FILE_TYPE" m) ∧
    ((f.mimetype ∈ allowedTypes : Bool) = true →
      (lowerCase (extname f.originalname) ∈ allowedExtensions : Bool) = false →
      ∃ m, fileFilter f = .rejected "INVALID_FILE_EXTENSION" m) ∧
    (fileFilter f = .accepted →
      (uploadAudio store f newFilename newId).resp.status = 201 ∧
        (uploadAudio store f newFilename newId).store.audioFiles
          = store.audioFiles ++
              [{ oid := newId, originalName := f.originalname, filename := newFilename,
                 path := "./uploads/" ++ newFilename, mimetype := f.mimetype, size := f.size,
                 duration := none, status := "uploaded" }]) := by
  refine ⟨?_, ?_, ?_, ?_⟩
  · cases hm : (f.mimetype ∈ allowedTypes : Bool) with
    | false => simp [fileFilter, hm]
    | true =>
      cases he : (lowerCase (extname f.originalname) ∈ allowedExtensions : Bool) with
      | false => simp [fileFilter, hm, he]
      | true => simp [fileFilter, hm, he]
  · intro hm
    exact ⟨"Invalid file type. Allowed types: " ++ ", ".intercalate allowedTypes,
      by simp [fileFilter, hm]⟩
  · intro hm he
    exact ⟨"Invalid file extension. Allowed extensions: " ++
        ", ".intercalate allowedExtensions,
      by simp [fileFilter, hm, he]⟩
  · intro hacc
    have hme : (f.mimetype ∈ allowedTypes : Bool) = true := by
      cases hm : (f.mimetype ∈ allowedTypes : Bool) with
      | false => simp [fileFilter, hm] at hacc
      | true => rfl
    have hee : (lowerCase (extname f.originalname) ∈ allowedExtensions : Bool) = true := by
      cases he : (lowerCase (extname f.originalname) ∈ allowedExtensions : Bool) with
      | false => simp [fileFilter, hme, he] at hacc
      | true => rfl
    have horig : f.originalname ≠ "" := by
      intro h0
      rw [h0] at hee
      exact absurd hee (by decide)
    have hpath : ("./uploads/" ++ newFilename) ≠ "" := by
      intro h
      have h2 := congrArg String.length h
      rw [String.length_append] at h2
      have h3 : ("./uploads/" : String).length = 10 := rfl
      have h4 : ("" : String).length = 0 := rfl
      omega
    have hvd : validAudioFileDoc
        { oid := newId, originalName := f.originalname, filename := newFilename,
          path := "./uploads/" ++ newFilename, mimetype := f.mimetype, size := f.size,
          duration := none, status := "uploaded" } = true := by
      have hm3 : f.mimetype ∈ (["audio/wav", "audio/mpeg", "audio/mp3"] : List String) :=
        of_decide_eq_true (by simpa [allowedTypes] using hme)
      simp [validAudioFileDoc, horig, hnf, hpath, hm3]
    constructor <;> simp [uploadAudio, hacc, hvd]

/-- Witness for C7: a concrete valid WAV upload is accepted and appended
with status `uploaded`. -/
theorem upload_validation_and_creation_witness :
    fileFilter ⟨"call.wav", "audio/wav", 2048⟩ = .accepted ∧
      (uploadAudio ⟨[], [], [], []⟩ ⟨"call.wav", "audio/wav", 2048⟩ "gen.wav"
          idA).resp.status = 201 := by
  have h := upload_validation_and_creation ⟨"call.wav", "audio/wav", 2048⟩ ⟨[], [], [], []⟩
    "gen.wav" idA (by decide)
  have hacc : fileFilter ⟨"call.wav", "audio/wav", 2048⟩ = .accepted :=
    h.1.mpr ⟨by decide, by decide⟩
  exact ⟨hacc, (h.2.2.2 hacc).1⟩

/-! ## C9: pagination bounds -/

/-- The natural-number form of `Math.ceil(N / l)` brackets `N`. -/
theorem ceilDiv_facts (N l : Nat) (hl : 1 ≤ l) :
    N ≤ ((N + l - 1) / l) * l ∧ ((N + l - 1) / l) * l ≤ N + l - 1 := by
  have hl0 : 0 < l := hl
  have hub : ((N + l - 1) / l) * l ≤ N + l - 1 := Nat.div_mul_le_self _ _
  refine ⟨?_, hub⟩
  have hsum := Nat.div_add_mod (N + l - 1) l
  have hr : (N + l - 1) % l < l := Nat.mod_lt _ hl0
  rw [Nat.mul_comm]
  generalize hgen : l * ((N + l - 1) / l) = m at hsum ⊢
  generalize (N + l - 1) % l = r at hsum hr
  omega

/-- The pagination block satisfies the reported-ceiling equation and the
last-page coverage inequality. -/
theorem paginationFor_spec (page limit N : Nat) (hl : 1 ≤ limit) :
    (((paginationFor page limit N).total : ℤ)
        = ⌈(((paginationFor page limit N).totalItems : ℚ)) / (limit : ℚ)⌉) ∧
      (page = (paginationFor page limit N).total →
        (paginationFor page limit N).totalItems ≤ page * limit) := by
  obtain ⟨hlb, hub⟩ := ceilDiv_facts N limit hl
  have hq0 : (0 : ℚ) < (limit : ℚ) := by exact_mod_cast hl
  have hq1 : (1 : ℚ) ≤ (limit : ℚ) := by exact_mod_cast hl
  have hcast : (((N + limit - 1) / limit : Nat) : ℚ) * (limit : ℚ)
      ≤ (N : ℚ) + (limit : ℚ) - 1 := by
    have hNl : (1 : Nat) ≤ N + limit := by omega
    have h2 : (((N + limit - 1) / limit * limit : Nat) : ℚ) ≤ ((N + limit - 1 : Nat) : ℚ) :=
      Nat.cast_le.mpr hub
    rw [Nat.cast_sub hNl] at h2
    push_cast at h2
    linarith
  have hlbq : (N : ℚ) ≤ (((N + limit - 1) / limit : Nat) : ℚ) * (limit : ℚ) := by
    have h2 : ((N : Nat) : ℚ) ≤ (((N + limit - 1) / limit * limit : Nat) : ℚ) :=
      Nat.cast_le.mpr hlb
    push_cast at h2
    linarith
  constructor
  · show (((N + limit - 1) / limit : Nat) : ℤ) = ⌈((N : ℚ)) / (limit : ℚ)⌉
    rw [eq_comm, Int.ceil_eq_iff]
    constructor
    · rw [lt_div_iff₀ hq0, Int.cast_natCast]
      have hring : ((((N + limit - 1) / limit : Nat) : ℚ) - 1) * (limit : ℚ)
          = (((N + limit - 1) / limit : Nat) : ℚ) * (limit : ℚ) - (limit : ℚ) := by ring
      rw [hring]
      linarith
    · rw [div_le_iff₀ hq0, Int.cast_natCast]
      linarith
  · intro hpage
    have : (paginationFor page limit N).totalItems = N := rfl
    rw [this, hpage]
    show N ≤ (N + limit - 1) / limit * limit
    exact hlb

/-- C9: every paginated list response (uploads and analyses) returns at
most `limit` items, reports `total = ceil(totalItems / limit)`, and when
the requested page equals the reported page total, `page * limit` covers
`totalItems`.  `sortFn` stands for the reordering done by the sort stage. -/
theorem list_pagination_bounds (store : Store) (statusQ mimetypeQ sentimentQ : Option String)
    (minSatisfactionQ : Option ℚ) (resolvedQ : Option Bool)
    (sortU : List AudioFile → List AudioFile) (sortA : List AnalysisDoc → List AnalysisDoc)
    (page limit : Nat) (hl : 1 ≤ limit) :
    ((getUploads store statusQ mimetypeQ sortU page limit).items.length ≤ limit ∧
      (((getUploads store statusQ mimetypeQ sortU page limit).pagination.total : ℤ)
        = ⌈(((getUploads store statusQ mimetypeQ sortU page limit).pagination.totalItems : ℚ))
            / (limit : ℚ)⌉) ∧
      (page = (getUploads store statusQ mimetypeQ sortU page limit).pagination.total →
        (getUploads store statusQ mimetypeQ sortU page limit).pagination.totalItems
          ≤ page * limit)) ∧
    ((getAnalyses store sentimentQ minSatisfactionQ resolvedQ sortA page limit).items.length
        ≤ limit ∧
      (((getAnalyses store sentimentQ minSatisfactionQ resolvedQ sortA page
            limit).pagination.total : ℤ)
        = ⌈(((getAnalyses store sentimentQ minSatisfactionQ resolvedQ sortA page
              limit).pagination.totalItems : ℚ)) / (limit : ℚ)⌉) ∧
      (page = (getAnalyses store sentimentQ minSatisfactionQ resolvedQ sortA page
            limit).pagination.total →
        (getAnalyses store sentimentQ minSatisfactionQ resolvedQ sortA page
            limit).pagination.totalItems ≤ page * limit)) := by
  constructor
  · refine ⟨?_, ?_, ?_⟩
    · simp only [getUploads, List.length_take]
      exact min_le_left _ _
    · exact (paginationFor_spec page limit _ hl).1
    · exact (paginationFor_spec page limit _ hl).2
  · refine ⟨?_, ?_, ?_⟩
    · simp only [getAnalyses, List.length_take]
      exact min_le_left _ _
    · exact (paginationFor_spec page limit _ hl).1
    · exact (paginationFor_spec page limit _ hl).2

/-- Witness for C9 on a two-file store with limit 1. -/
theorem list_pagination_bounds_witness :
    (getUploads ⟨[afA, { afA with oid := idB }], [], [], []⟩ none none id 2 1).items.length
        ≤ 1 ∧
      (2 = (getUploads ⟨[afA, { afA with oid := idB }], [], [], []⟩ none none id
            2 1).pagination.total →
        (getUploads ⟨[afA, { afA with oid := idB }], [], [], []⟩ none none id
            2 1).pagination.totalItems ≤ 2 * 1) :=
  ⟨(list_pagination_bounds ⟨[afA, { afA with oid := idB }], [], [], []⟩ none none none
      none none id id 2 1 (by decide)).1.1,
    (list_pagination_bounds ⟨[afA, { afA with oid := idB }], [], [], []⟩ none none none
      none none id id 2 1 (by decide)).1.2.2⟩

end BPO
